import Mathlib

/-!
# Verification of the starter-kit front-end components

Shallow embedding of the decision logic of the two source files:

* `src/components/Offer/Form/Checkout.tsx` — the `OfferFormCheckout`
  component: the `canPurchase` predicate, the `onSubmit` handler
  (try/catch/finally around the `acceptOffer` hook), the quantity
  `NumberInput` configuration and the submit/login button choice.
* `src/unnamed/part_000` — the bids-placed page (`BidPlacedPage` with
  `getServerSideProps` and `handleCancelOffer`) and the token-creation
  page (`CreatePage`).

JavaScript values are embedded as follows: `BigNumber` becomes `Int`
(ethers `BigNumber` is exact big-integer arithmetic), nullable values
become `Option`, `Date` timestamps become `Int` milliseconds, thrown
exceptions become `Except`/explicit error components, and JS truthiness
is spelled out per type (an object such as a `BigNumber` or a `Date` is
always truthy; a string is truthy iff non-empty; an array is always
truthy).
-/

namespace StarterKit

/-! ## JS helpers -/

/-- Truthiness of a JS `string | null | undefined` value:
`none` (null/undefined) and the empty string are falsy. -/
def strTruthy : Option String → Bool
  | none => false
  | some s => s ≠ ""

/-! ## Checkout form: `canPurchase` (Checkout.tsx lines 110–113)

```js
const canPurchase = useMemo(() => {
  if (!balance || !quantity) return false
  return balance.gte(priceUnit.mul(quantity))
}, [balance, priceUnit, quantity])
```

`balance` is the `BigNumber | undefined` returned by `useBalance`
(a `BigNumber`, being an object, is truthy even when it is zero, so
`!balance` only detects a balance that has not loaded).  `quantity` is
the string held by the form's quantity field; it is falsy exactly when
the field is empty, and is otherwise parsed by `BigNumber.mul` as an
exact decimal integer.  We embed `balance` as `Option Int` (`none` =
not loaded) and the quantity field's numeric content as `Option Nat`
(`none` = empty field). -/
def canPurchase (balance : Option Int) (unitPrice : Int)
    (quantity : Option Nat) : Bool :=
  match balance with
  | none => false
  | some b =>
    match quantity with
    | none => false
    | some q => decide (unitPrice * (q : Int) ≤ b)

/-! ## Observable effects of the two async user-action handlers

`onSubmit` (Checkout.tsx lines 115–129) and `handleCancelOffer`
(part_000 lines 164–184) are `async` functions of the shape
`try { ... await hook ... } catch (e) { toast(formatError(e)) } finally { close() }`.
We embed them as straight-line step sequences producing a trace of
observable effects; an awaited call either resolves or rejects with an
error message. -/

/-- Title of a toast notification.  `formatted e` stands for
`formatError(e)` (the `formatError` function is imported from
`@nft/hooks` and lives outside this repository, so it is kept
uninterpreted as a constructor applied to the caught error);
`i18n key` stands for a translated message `t(key)`. -/
inductive ToastTitle
  | formatted (e : String)
  | i18n (key : String)
  deriving DecidableEq, Repr

/-- Observable effects of the two handlers. -/
inductive Effect
  | openAcceptOfferModal
  | closeAcceptOfferModal
  | openCancelOfferModal
  | closeCancelOfferModal
  | callAcceptOffer (offerId : String) (quantity : String)
  | callCancel (offerId : String)
  | callRefetch
  | callOnPurchased
  | toast (title : ToastTitle) (status : String)
  deriving DecidableEq, Repr

/-- One step of an async handler body: a synchronous observable effect,
or an awaited call recording its invocation effect and either resolving
or rejecting with an error message. -/
inductive Step
  | eff (e : Effect)
  | awaitCall (e : Effect) (result : Except String Unit)

/-- Run a step sequence: effects accumulate in order; a rejected await
aborts the remaining steps with the thrown error (second component). -/
def runSteps : List Step → List Effect × Option String
  | [] => ([], none)
  | Step.eff e :: rest =>
      let r := runSteps rest
      (e :: r.1, r.2)
  | Step.awaitCall e res :: rest =>
      match res with
      | Except.ok _ =>
          let r := runSteps rest
          (e :: r.1, r.2)
      | Except.error msg => ([e], some msg)

/-- `try { body } catch (e) { catchEffects e } finally { finEffects }`
where, as in both source handlers, the catch and finally blocks only
perform synchronous effects: the finally effects always run, the catch
effects run exactly when the body threw, and no exception escapes. -/
def tryCatchFinally (body : List Effect × Option String)
    (catchEffects : String → List Effect) (finEffects : List Effect) :
    List Effect × Option String :=
  match body.2 with
  | none => (body.1 ++ finEffects, none)
  | some e => (body.1 ++ catchEffects e ++ finEffects, none)

/-- The checkout form submit handler (Checkout.tsx lines 115–129):

```js
const onSubmit = handleSubmit(async ({ quantity }) => {
  if (!offer) throw new Error('offer falsy')
  try {
    acceptOfferOnOpen()
    await acceptOffer(offer, quantity)
    onPurchased()
  } catch (e) {
    toast({ title: formatError(e), status: 'error' })
  } finally {
    acceptOfferOnClose()
  }
})
```

`offerTruthy` is the truthiness of the `offer` prop (its falsiness
throws before the try block, so no effect happens); `accept` is the
outcome of the awaited `acceptOffer(offer, quantity)` call. -/
def onSubmit (offerTruthy : Bool) (offerId : String) (quantity : String)
    (accept : Except String Unit) : List Effect × Option String :=
  if offerTruthy then
    tryCatchFinally
      (runSteps [Step.eff Effect.openAcceptOfferModal,
                 Step.awaitCall (Effect.callAcceptOffer offerId quantity) accept,
                 Step.eff Effect.callOnPurchased])
      (fun e => [Effect.toast (ToastTitle.formatted e) "error"])
      [Effect.closeAcceptOfferModal]
  else ([], some "offer falsy")

/-- The bids-placed page cancel handler (part_000 lines 164–184):

```js
const handleCancelOffer = useCallback(async (id) => {
  try {
    onOpen()
    await cancel({ id })
    toast({ title: t('user.bid-placed.notifications.canceled'), status: 'success' })
    await refetch()
  } catch (e) {
    toast({ title: formatError(e), status: 'error' })
  } finally {
    onClose()
  }
}, ...)
```

`cancelRes` is the outcome of the awaited `cancel({ id })` hook call and
`refetchRes` the outcome of the awaited `refetch()`. -/
def handleCancelOffer (id : String) (cancelRes : Except String Unit)
    (refetchRes : Except String Unit) : List Effect × Option String :=
  tryCatchFinally
    (runSteps [Step.eff Effect.openCancelOfferModal,
               Step.awaitCall (Effect.callCancel id) cancelRes,
               Step.eff (Effect.toast
                 (ToastTitle.i18n "user.bid-placed.notifications.canceled")
                 "success"),
               Step.awaitCall Effect.callRefetch refetchRes])
    (fun e => [Effect.toast (ToastTitle.formatted e) "error"])
    [Effect.closeCancelOfferModal]

/-- Whether an effect is a toast notification. -/
def isToast : Effect → Bool
  | Effect.toast _ _ => true
  | _ => false

/-- Whether a trace shows at least one toast notification. -/
def showsToast (l : List Effect) : Bool := l.any isToast

/-- Whether an effect is an awaited call of one of the two delegated
hooks (`acceptOffer` from `useAcceptOffer`, `cancel` from
`useCancelOffer`). -/
def isHookCall : Effect → Bool
  | Effect.callAcceptOffer _ _ => true
  | Effect.callCancel _ => true
  | _ => false

/-- Number of delegated-hook calls awaited in a trace. -/
def hookCallCount (l : List Effect) : Nat := l.countP isHookCall

/-! ## JS `parseInt(s, 10)` and `toLowerCase` -/

/-- Value of a list of decimal digit characters. -/
def digitsToNat (ds : List Char) : Nat :=
  ds.foldl (fun a c => a * 10 + (c.toNat - 48)) 0

/-- Helper for `parseInt10`: parse the leading run of decimal digits
with the given sign; `none` (JS `NaN`) when there is no digit. -/
def parseIntDigits (cs : List Char) (sign : Int) : Option Int :=
  let ds := cs.takeWhile Char.isDigit
  if ds.isEmpty then none else some (sign * (digitsToNat ds : Int))

/-- JS `parseInt(s, 10)`: skip leading spaces, read an optional sign and
then the longest run of decimal digits, ignoring anything after it;
`none` models `NaN`. -/
def parseInt10 (s : String) : Option Int :=
  match s.data.dropWhile (fun c => c = ' ') with
  | [] => none
  | c :: rest =>
    if c = '-' then parseIntDigits rest (-1)
    else if c = '+' then parseIntDigits rest 1
    else parseIntDigits (c :: rest) 1

/-- JS `String.prototype.toLowerCase` on the ASCII strings handled here:
lower-case every character. -/
def jsToLower (s : String) : String := String.mk (s.data.map Char.toLower)

/-! ## Quantity `NumberInput` of the checkout form (Checkout.tsx 143–166) -/

/-- The props of a Chakra `NumberInput` that govern its value behavior. -/
structure NumberInputConfig where
  clampValueOnBlur : Bool
  minValue : Int
  maxValue : Option Int
  stepValue : Int
  deriving DecidableEq, Repr

/-- The configuration the checkout form passes to the quantity field
(Checkout.tsx lines 144–153): `clampValueOnBlur={false}`, `min={1}`,
`max={parseInt(offer.availableQuantity, 10)}`, `step={1}`
(`maxValue = none` models a `NaN` max). -/
def quantityInput (availableQuantity : String) : NumberInputConfig :=
  { clampValueOnBlur := false
    minValue := 1
    maxValue := parseInt10 availableQuantity
    stepValue := 1 }

/-- Modelled behavior of the external Chakra `NumberInput` widget: the
value committed for an entered value.  When `clampValueOnBlur` is true
the entered value is clamped into `[minValue, maxValue]` on blur; when
it is false — as the checkout form sets — the entered value is committed
unchanged. -/
def committedValue (cfg : NumberInputConfig) (entered : Int) : Int :=
  if cfg.clampValueOnBlur then
    match cfg.maxValue with
    | some m => max cfg.minValue (min m entered)
    | none => max cfg.minValue entered
  else entered

/-- The quantity value the form holds after an entry in the quantity
field: the committed value is stored verbatim by
`onChange={(x) => setValue('quantity', x)}` (Checkout.tsx line 151). -/
def formQuantityHeld (availableQuantity : String) (entered : Int) : Int :=
  committedValue (quantityInput availableQuantity) entered

/-! ## Bids-placed page: rows of the bid table (part_000 lines 286–363) -/

/-- Model of the external `CancelOfferStep` enum from `@nft/hooks`.  The
page only ever compares the active step against `INITIAL`, so the model
keeps `INITIAL` plus representative in-progress steps. -/
inductive CancelOfferStep
  | INITIAL
  | APPROVAL
  | SIGNATURE
  | PENDING
  deriving DecidableEq, Repr

/-- The fields of a converted bid (`convertBidFull` output plus the
asset) that the row rendering reads.  `unitPrice` and
`availableQuantity` are ethers `BigNumber`s, hence `Int`; `expiredAt`
is a `Date | null`, hence `Option Int` (milliseconds; a `Date` object
is always truthy, so falsiness detects exactly `null`). -/
structure BidItem where
  id : String
  assetId : String
  unitPrice : Int
  availableQuantity : Int
  expiredAt : Option Int
  deriving DecidableEq, Repr

/-- The status cell of a bid row (part_000 lines 327–331):
`item.expiredAt && item.expiredAt <= new Date() ? t(...expired) : t(...active)`.
The result is the i18n key of the displayed status. -/
def bidStatus (now : Int) (item : BidItem) : String :=
  match item.expiredAt with
  | some t => if t ≤ now then "user.bid-placed.status.expired"
              else "user.bid-placed.status.active"
  | none => "user.bid-placed.status.active"

/-- The amount of the price cell of a bid row (part_000 line 323):
`item.unitPrice.mul(item.availableQuantity)`. -/
def displayedPrice (item : BidItem) : Int :=
  item.unitPrice * item.availableQuantity

/-- Disabled flag of a cancel button (part_000 line 340):
`disabled={activeStep !== CancelOfferStep.INITIAL}`. -/
def cancelDisabled (activeStep : CancelOfferStep) : Bool :=
  decide (activeStep ≠ CancelOfferStep.INITIAL)

/-- The action cell of a bid row. -/
inductive RowAction
  | noAction
  | cancelButton (offerId : String) (disabled : Bool)
  | rebidLink (href : String)
  deriving DecidableEq, Repr

/-- The action cell of a bid row (part_000 lines 333–361): nothing
unless `ownerLoggedIn`; for the owner, a cancel button wired to
`handleCancelOffer(item.id)` when `!item.expiredAt || item.expiredAt > new Date()`,
otherwise a link to `/tokens/<asset id>/bid`. -/
def rowAction (ownerLoggedIn : Bool) (activeStep : CancelOfferStep)
    (now : Int) (item : BidItem) : RowAction :=
  if ownerLoggedIn then
    if (match item.expiredAt with
        | none => true
        | some t => decide (now < t)) then
      RowAction.cancelButton item.id (cancelDisabled activeStep)
    else
      RowAction.rebidLink ("/tokens/" ++ item.assetId ++ "/bid")
  else RowAction.noAction

/-! ## Checkout form: submit / login button (Checkout.tsx lines 209–226) -/

/-- The button rendered at the bottom of the checkout form.
`submitButton disabled` is the `type="submit"` button of the form;
`loginButton` is the `type="button"` button whose `onClick` opens the
login modal (it never submits the form). -/
inductive CheckoutButton
  | submitButton (disabled : Bool)
  | loginButton
  deriving DecidableEq, Repr

/-- Which button the checkout form renders (Checkout.tsx lines
209–226): for a truthy `account` a submit button with
`disabled={!!account && !canPurchase}`, otherwise a plain button opening
the login modal. -/
def checkoutButton (account : Option String) (canP : Bool) : CheckoutButton :=
  if strTruthy account then
    CheckoutButton.submitButton (strTruthy account && !canP)
  else CheckoutButton.loginButton

/-! ## Token-creation page (part_000 lines 485–653) -/

/-- `creator.verified` (part_000 lines 527–535):
`data?.account?.verification?.status === 'VALIDATED'`; the argument is
the optionally fetched verification status. -/
def creatorVerified (status : Option String) : Bool :=
  decide (status = some "VALIDATED")

/-- What the body of `CreatePage` renders. -/
inductive CreateRender
  | restrictedNotice
  | createForm (multiple : Bool)
  deriving DecidableEq, Repr

/-- The render decision of `CreatePage` (part_000 lines 562–653): when
`environment.RESTRICT_TO_VERIFIED_ACCOUNT` holds and the creator is not
verified, the component returns the restricted-access notice early and
`TokenFormCreate` is never reached; otherwise it renders the creation
form. -/
def createPageRender (restrictToVerifiedAccount : Bool)
    (status : Option String) (multiple : Bool) : CreateRender :=
  if restrictToVerifiedAccount && !creatorVerified status then
    CreateRender.restrictedNotice
  else CreateRender.createForm multiple

/-! ## Bids-placed page: `getServerSideProps` (part_000 lines 70–112) -/

/-- Order-by values of the `FetchUserBidsPlaced` query used by the page. -/
inductive OrderBy
  | CREATED_AT_DESC
  | CREATED_AT_ASC
  deriving DecidableEq, Repr

/-- The parts of the Next.js request context the page reads: the `id`
route parameter (`string | string[] | undefined`) and the query-string
parameters consumed by the `params` helpers. -/
structure SSPContext where
  paramsId : Option (String ⊕ List String)
  queryLimit : Option String
  queryPage : Option String
  queryOrderBy : Option String
  deriving DecidableEq, Repr

/-- Errors thrown by `getServerSideProps`. -/
inductive JsError
  | invariantViolation (msg : String)
  | typeError
  | queryError (e : String)
  | dataFalsy
  deriving DecidableEq, Repr

/-- The `userAddress` computation of `getServerSideProps` (part_000
lines 73–78):

```js
const userAddress = context.params?.id
  ? Array.isArray(context.params.id)
    ? context.params.id[0].toLowerCase()
    : context.params.id.toLowerCase()
  : null
invariant(userAddress, 'userAddress is falsy')
```

An absent or empty `id` is falsy, so `userAddress` is `null` and the
invariant throws; an array `id` is truthy even when empty, in which case
`id[0]` is `undefined` and `.toLowerCase()` throws a `TypeError`; the
invariant also throws when the lowercased address is the empty string. -/
def computeUserAddress (id : Option (String ⊕ List String)) :
    Except JsError String :=
  match id with
  | none => Except.error (JsError.invariantViolation "userAddress is falsy")
  | some (Sum.inl s) =>
      if s = "" then
        Except.error (JsError.invariantViolation "userAddress is falsy")
      else if jsToLower s = "" then
        Except.error (JsError.invariantViolation "userAddress is falsy")
      else Except.ok (jsToLower s)
  | some (Sum.inr l) =>
      match l with
      | [] => Except.error JsError.typeError
      | h :: _ =>
          if jsToLower h = "" then
            Except.error (JsError.invariantViolation "userAddress is falsy")
          else Except.ok (jsToLower h)

/-- Modelled from the spec: `getLimit` from `params` (the `params`
module is not under `src/`).  The spec describes the page as fetching a
paginated list with parameters derived from the request context; the
limit is the parsed `limit` query parameter, defaulting to the supplied
`environment.PAGINATION_LIMIT`. -/
def getLimit (ctx : SSPContext) (defaultLimit : Int) : Int :=
  match ctx.queryLimit.bind parseInt10 with
  | some n => n
  | none => defaultLimit

/-- Modelled from the spec: `getPage` from `params` (not under `src/`);
the parsed `page` query parameter, defaulting to 1. -/
def getPage (ctx : SSPContext) : Int :=
  match ctx.queryPage.bind parseInt10 with
  | some n => n
  | none => 1

/-- Modelled from the spec: `getOrder` from `params` (not under
`src/`); the `orderBy` query parameter when it carries a valid value,
otherwise the supplied default. -/
def getOrder (ctx : SSPContext) (dflt : OrderBy) : OrderBy :=
  match ctx.queryOrderBy with
  | some "CREATED_AT_DESC" => OrderBy.CREATED_AT_DESC
  | some "CREATED_AT_ASC" => OrderBy.CREATED_AT_ASC
  | _ => dflt

/-- Modelled from the spec: `getOffset` from `params` (not under
`src/`); the offset of the requested page given the page size. -/
def getOffset (ctx : SSPContext) (defaultLimit : Int) : Int :=
  (getPage ctx - 1) * getLimit ctx defaultLimit

/-- Variables of the `FetchUserBidsPlaced` query (part_000 lines
86–92). `now` is a millisecond timestamp. -/
structure QueryVars where
  limit : Int
  offset : Int
  orderBy : OrderBy
  address : String
  now : Int
  deriving DecidableEq, Repr

/-- The account fields read from the query result (part_000 lines
105–107). -/
structure AccountData where
  name : Option String
  description : Option String
  image : Option String
  deriving DecidableEq, Repr

/-- The part of the query data read by `getServerSideProps`. -/
structure QueryData where
  account : Option AccountData
  deriving DecidableEq, Repr

/-- A GraphQL client result: optional data and optional error. -/
structure QueryResult where
  data : Option QueryData
  error : Option String
  deriving DecidableEq, Repr

/-- The props returned by `getServerSideProps` (part_000 lines
96–110). -/
structure PageProps where
  page : Int
  limit : Int
  offset : Int
  orderBy : OrderBy
  userAddress : String
  now : Int
  metaTitle : String
  metaDescription : String
  metaImage : String
  deriving DecidableEq, Repr

/-- JS `a || b` for an optional string `a`: the default wins when `a`
is `null`/`undefined` or empty. -/
def strOr (v : Option String) (d : String) : String :=
  match v with
  | some s => if s = "" then d else s
  | none => d

/-- `getServerSideProps` of the bids-placed page (part_000 lines
70–112), with the GraphQL client embedded as a function from the query
variables to a result and `new Date()` as the `now` parameter.  On
success it returns the variables that were sent to the client together
with the props, so that theorems can speak about both. -/
def getServerSideProps (ctx : SSPContext) (paginationLimit : Int)
    (now : Int) (client : QueryVars → QueryResult) :
    Except JsError (QueryVars × PageProps) :=
  match computeUserAddress ctx.paramsId with
  | Except.error err => Except.error err
  | Except.ok userAddress =>
    let vars : QueryVars :=
      { limit := getLimit ctx paginationLimit
        offset := getOffset ctx paginationLimit
        orderBy := getOrder ctx OrderBy.CREATED_AT_DESC
        address := userAddress, now := now }
    let res := client vars
    match res.error with
    | some e => Except.error (JsError.queryError e)
    | none =>
      match res.data with
      | none => Except.error JsError.dataFalsy
      | some d =>
        Except.ok (vars,
          { page := getPage ctx, limit := vars.limit, offset := vars.offset
            orderBy := vars.orderBy, userAddress := userAddress, now := now
            metaTitle := strOr (d.account.bind AccountData.name) userAddress
            metaDescription :=
              strOr (d.account.bind AccountData.description) ""
            metaImage := strOr (d.account.bind AccountData.image) "" })

/-- A concrete request context used to exercise `getServerSideProps`:
route id `0xAB`, no query parameters. -/
def ctxW : SSPContext := ⟨some (Sum.inl "0xAB"), none, none, none⟩

/-- A concrete GraphQL client that always answers with data holding no
account and no error. -/
def clientW : QueryVars → QueryResult := fun _ => ⟨some ⟨none⟩, none⟩

/-- The query variables `getServerSideProps ctxW 12 0 clientW` sends. -/
def varsW : QueryVars := ⟨12, 0, OrderBy.CREATED_AT_DESC, "0xab", 0⟩

/-- The props `getServerSideProps ctxW 12 0 clientW` returns. -/
def propsW : PageProps :=
  ⟨1, 12, 0, OrderBy.CREATED_AT_DESC, "0xab", 0, "0xab", "", ""⟩

/-! ## Helper lemmas -/

/-- Lowercasing preserves emptiness. -/
theorem jsToLower_eq_empty_iff (s : String) : jsToLower s = "" ↔ s = "" := by
  cases s with
  | mk data =>
    cases data with
    | nil => simp [jsToLower]
    | cons c cs =>
      constructor <;> intro h
      · exact absurd (congrArg String.data h) (by simp [jsToLower])
      · exact absurd (congrArg String.data h) (by simp)

/-! ## Theorems for the claims -/

/-- C1: in `OfferFormCheckout`, `canPurchase` is true iff the fetched
balance is present and the entered quantity is present and
`balance >= unitPrice * quantity` holds in exact integer arithmetic; it
is false whenever the balance has not loaded or the quantity field is
empty. -/
theorem canPurchase_iff (balance : Option Int) (unitPrice : Int)
    (quantity : Option Nat) :
    (canPurchase balance unitPrice quantity = true ↔
      ∃ b q, balance = some b ∧ quantity = some q ∧
        unitPrice * (q : Int) ≤ b) ∧
    canPurchase none unitPrice quantity = false ∧
    canPurchase balance unitPrice none = false := by
  refine ⟨?_, rfl, ?_⟩
  · cases balance <;> cases quantity <;> simp [canPurchase]
  · cases balance <;> simp [canPurchase]

/-- C2: for both awaited user actions, a rejection of the awaited hook
promise is caught at the call site and surfaced as a toast titled
`formatError(e)` with status `error`; the modal close of the `finally`
block runs in every case; and the success continuation (`onPurchased`
in the checkout; the success toast and `refetch` on the bids page) does
not run on the error path. -/
theorem hook_error_handling (e offerId q id : String)
    (r rf : Except String Unit) :
    (onSubmit true offerId q (Except.error e)).1 =
      [Effect.openAcceptOfferModal, Effect.callAcceptOffer offerId q,
       Effect.toast (ToastTitle.formatted e) "error",
       Effect.closeAcceptOfferModal] ∧
    Effect.closeAcceptOfferModal ∈ (onSubmit true offerId q r).1 ∧
    Effect.callOnPurchased ∉ (onSubmit true offerId q (Except.error e)).1 ∧
    (handleCancelOffer id (Except.error e) rf).1 =
      [Effect.openCancelOfferModal, Effect.callCancel id,
       Effect.toast (ToastTitle.formatted e) "error",
       Effect.closeCancelOfferModal] ∧
    Effect.closeCancelOfferModal ∈ (handleCancelOffer id r rf).1 ∧
    Effect.toast (ToastTitle.i18n "user.bid-placed.notifications.canceled")
        "success" ∉ (handleCancelOffer id (Except.error e) rf).1 ∧
    Effect.callRefetch ∉ (handleCancelOffer id (Except.error e) rf).1 := by
  cases r <;> cases rf <;>
    simp [onSubmit, handleCancelOffer, tryCatchFinally, runSteps]

/-- Witness for C2 at a concrete run: the accept-offer modal is closed
on a successful purchase. -/
theorem hook_error_handling_witness :
    Effect.closeAcceptOfferModal ∈
      (onSubmit true "offer-1" "1" (Except.ok ())).1 :=
  (hook_error_handling "boom" "offer-1" "1" "bid-1"
    (Except.ok ()) (Except.ok ())).2.1

/-- C3 as stated fails on the code: on success of the single awaited
`acceptOffer` promise, the checkout submit handler shows no toast at
all (it invokes `onPurchased` and closes the modal instead). -/
theorem single_await_toast_cex :
    (onSubmit true "offer-1" "1" (Except.ok ())).1 =
      [Effect.openAcceptOfferModal, Effect.callAcceptOffer "offer-1" "1",
       Effect.callOnPurchased, Effect.closeAcceptOfferModal] ∧
    showsToast (onSubmit true "offer-1" "1" (Except.ok ())).1 = false :=
  ⟨rfl, rfl⟩

/-- C3 amended: every user action awaits exactly one promise of the
delegated hook and shows an error toast on its failure; on success the
cancel action shows a success toast (and then awaits `refetch`), while
the checkout action shows no toast and invokes the `onPurchased`
callback instead. -/
theorem single_await_toast_amended (e offerId q id : String)
    (r rf : Except String Unit) :
    hookCallCount (onSubmit true offerId q r).1 = 1 ∧
    hookCallCount (handleCancelOffer id r rf).1 = 1 ∧
    showsToast (onSubmit true offerId q (Except.error e)).1 = true ∧
    showsToast (onSubmit true offerId q (Except.ok ())).1 = false ∧
    Effect.callOnPurchased ∈ (onSubmit true offerId q (Except.ok ())).1 ∧
    showsToast (handleCancelOffer id (Except.error e) rf).1 = true ∧
    Effect.toast (ToastTitle.i18n "user.bid-placed.notifications.canceled")
        "success" ∈ (handleCancelOffer id (Except.ok ()) rf).1 := by
  cases r <;> cases rf <;>
    simp [onSubmit, handleCancelOffer, tryCatchFinally, runSteps,
          hookCallCount, showsToast, isToast, isHookCall]

/-- C4 as stated fails on the code: with `availableQuantity = "10"` and
25 entered, the form holds 25, outside the range up to
`parseInt("10", 10) = 10`, because the quantity field sets
`clampValueOnBlur` to false. -/
theorem quantity_clamp_cex :
    parseInt10 "10" = some 10 ∧
    (quantityInput "10").clampValueOnBlur = false ∧
    formQuantityHeld "10" 25 = 25 ∧
    ¬(formQuantityHeld "10" 25 ≤ 10) := by
  refine ⟨by decide, rfl, rfl, by decide⟩

/-- C4 amended: the quantity `NumberInput` declares bounds `min` 1 and
`max` `parseInt(offer.availableQuantity, 10)` but disables clamping
(`clampValueOnBlur={false}`), so the quantity value the form holds is
the entered value unchanged and need not lie between the declared
bounds. -/
theorem quantity_no_clamp (availableQuantity : String) (entered : Int) :
    (quantityInput availableQuantity).clampValueOnBlur = false ∧
    (quantityInput availableQuantity).minValue = 1 ∧
    (quantityInput availableQuantity).maxValue = parseInt10 availableQuantity ∧
    formQuantityHeld availableQuantity entered = entered :=
  ⟨rfl, rfl, rfl, rfl⟩

/-- C5: in every bid row of the bids-placed page, the disabled flag of
a rendered cancel button is `cancelDisabled activeStep`, which is true
exactly when the cancel hook is past `CancelOfferStep.INITIAL` and
false exactly at `CancelOfferStep.INITIAL`. -/
theorem cancel_button_disabled_iff (activeStep : CancelOfferStep)
    (now : Int) (item : BidItem) :
    (cancelDisabled activeStep = true ↔
      activeStep ≠ CancelOfferStep.INITIAL) ∧
    (cancelDisabled activeStep = false ↔
      activeStep = CancelOfferStep.INITIAL) ∧
    (∀ oid d, rowAction true activeStep now item =
        RowAction.cancelButton oid d → d = cancelDisabled activeStep) := by
  refine ⟨by simp [cancelDisabled], by simp [cancelDisabled], ?_⟩
  intro oid d h
  simp only [rowAction, if_true] at h
  split at h
  · injection h with h1 h2
    exact h2.symm
  · exact absurd h (by simp)

/-- Witness for C5 at a concrete row: at step `INITIAL` the rendered
cancel button is enabled. -/
theorem cancel_button_disabled_witness :
    rowAction true CancelOfferStep.INITIAL 0
        { id := "bid-1", assetId := "asset-1", unitPrice := 5,
          availableQuantity := 2, expiredAt := none } =
      RowAction.cancelButton "bid-1" false ∧
    false = cancelDisabled CancelOfferStep.INITIAL :=
  ⟨by decide,
   (cancel_button_disabled_iff CancelOfferStep.INITIAL 0
      { id := "bid-1", assetId := "asset-1", unitPrice := 5,
        availableQuantity := 2, expiredAt := none }).2.2 "bid-1" false
     (by decide)⟩

/-- C6: row actions render only for the logged-in profile owner; for
such a viewer a bid with no expiry or with an expiry strictly in the
future gets a cancel button wired to that bid's id (whose handler
delegates the cancellation to the hook's `cancel` with that id), and
every other (expired) bid gets a rebid link to `/tokens/<asset id>/bid`. -/
theorem row_actions_spec (activeStep : CancelOfferStep) (now : Int)
    (item : BidItem) (cancelRes refetchRes : Except String Unit) :
    rowAction false activeStep now item = RowAction.noAction ∧
    (rowAction true activeStep now item =
        RowAction.cancelButton item.id (cancelDisabled activeStep) ↔
      (item.expiredAt = none ∨ ∃ t, item.expiredAt = some t ∧ now < t)) ∧
    (rowAction true activeStep now item =
        RowAction.rebidLink ("/tokens/" ++ item.assetId ++ "/bid") ↔
      ∃ t, item.expiredAt = some t ∧ t ≤ now) ∧
    Effect.callCancel item.id ∈
      (handleCancelOffer item.id cancelRes refetchRes).1 := by
  refine ⟨rfl, ?_, ?_, ?_⟩
  · cases hx : item.expiredAt with
    | none => simp [rowAction, hx]
    | some t => by_cases hlt : now < t <;> simp [rowAction, hx, hlt, le_of_not_lt]
  · cases hx : item.expiredAt with
    | none => simp [rowAction, hx]
    | some t =>
      by_cases hlt : now < t <;>
        simp [rowAction, hx, hlt, not_le_of_lt, le_of_not_lt]
  · cases cancelRes <;> cases refetchRes <;>
      simp [handleCancelOffer, tryCatchFinally, runSteps]

/-- C7: `getServerSideProps` of the bids-placed page derives `limit`,
`page`, `offset` and `orderBy` (default `CREATED_AT_DESC`) from the
request context, lowercases the address of the `id` route parameter and
throws when it is absent, queries the client with exactly these
variables, throws on a query error or missing data, and returns the
same derived values as props. -/
theorem getServerSideProps_spec (ctx : SSPContext)
    (paginationLimit nowMs : Int) (client : QueryVars → QueryResult)
    (s : String) (l : List String) :
    getServerSideProps ctx paginationLimit nowMs client =
      (match computeUserAddress ctx.paramsId with
       | Except.error err => Except.error err
       | Except.ok ua =>
         let vars : QueryVars :=
           { limit := getLimit ctx paginationLimit
             offset := getOffset ctx paginationLimit
             orderBy := getOrder ctx OrderBy.CREATED_AT_DESC
             address := ua, now := nowMs }
         match (client vars).error with
         | some e => Except.error (JsError.queryError e)
         | none =>
           match (client vars).data with
           | none => Except.error JsError.dataFalsy
           | some d =>
             Except.ok (vars,
               { page := getPage ctx, limit := vars.limit
                 offset := vars.offset, orderBy := vars.orderBy
                 userAddress := ua, now := nowMs
                 metaTitle := strOr (d.account.bind AccountData.name) ua
                 metaDescription :=
                   strOr (d.account.bind AccountData.description) ""
                 metaImage := strOr (d.account.bind AccountData.image) "" })) ∧
    computeUserAddress none =
      Except.error (JsError.invariantViolation "userAddress is falsy") ∧
    (s ≠ "" →
      computeUserAddress (some (Sum.inl s)) = Except.ok (jsToLower s)) ∧
    (s ≠ "" →
      computeUserAddress (some (Sum.inr (s :: l))) =
        Except.ok (jsToLower s)) ∧
    (ctx.queryOrderBy = none →
      getOrder ctx OrderBy.CREATED_AT_DESC = OrderBy.CREATED_AT_DESC) ∧
    (∀ vars props,
      getServerSideProps ctx paginationLimit nowMs client =
        Except.ok (vars, props) →
      vars.limit = getLimit ctx paginationLimit ∧
      vars.offset = getOffset ctx paginationLimit ∧
      vars.orderBy = getOrder ctx OrderBy.CREATED_AT_DESC ∧
      vars.now = nowMs ∧
      computeUserAddress ctx.paramsId = Except.ok vars.address ∧
      props.page = getPage ctx ∧
      props.limit = vars.limit ∧
      props.offset = vars.offset ∧
      props.orderBy = vars.orderBy ∧
      props.userAddress = vars.address ∧
      props.now = nowMs) := by
  refine ⟨rfl, rfl, ?_, ?_, ?_, ?_⟩
  · intro hs
    have hlow : ¬(jsToLower s = "") := fun hc =>
      hs ((jsToLower_eq_empty_iff s).mp hc)
    simp [computeUserAddress, hs, hlow]
  · intro hs
    have hlow : ¬(jsToLower s = "") := fun hc =>
      hs ((jsToLower_eq_empty_iff s).mp hc)
    simp [computeUserAddress, hlow]
  · intro h
    simp [getOrder, h]
  · intro vars props hok
    unfold getServerSideProps at hok
    split at hok
    · exact Except.noConfusion hok
    · dsimp only at hok
      split at hok
      · exact Except.noConfusion hok
      · split at hok
        · exact Except.noConfusion hok
        · injection hok with hp
          injection hp with hv hpp
          subst hv
          subst hpp
          refine ⟨rfl, rfl, rfl, rfl, ?_, rfl, rfl, rfl, rfl, rfl, rfl⟩
          assumption

/-- Witness for C7 at a concrete request: a non-empty mixed-case id is
accepted and lowercased, an absent `orderBy` falls back to
`CREATED_AT_DESC`, and a successful run returns the derived values. -/
theorem getServerSideProps_witness :
    ("0xAB" : String) ≠ "" ∧
    computeUserAddress (some (Sum.inl "0xAB")) = Except.ok "0xab" ∧
    ctxW.queryOrderBy = none ∧
    getOrder ctxW OrderBy.CREATED_AT_DESC = OrderBy.CREATED_AT_DESC ∧
    getServerSideProps ctxW 12 0 clientW = Except.ok (varsW, propsW) ∧
    varsW.limit = getLimit ctxW 12 :=
  ⟨by decide,
   (getServerSideProps_spec ctxW 12 0 clientW "0xAB" []).2.2.1 (by decide),
   rfl,
   (getServerSideProps_spec ctxW 12 0 clientW "0xAB" []).2.2.2.2.1 rfl,
   rfl,
   ((getServerSideProps_spec ctxW 12 0 clientW "0xAB" []).2.2.2.2.2
      varsW propsW rfl).1⟩

/-- C8: without a truthy account the checkout renders the
`type="button"` login button, which opens the login modal and never
submits the form; with a truthy account the submit button is disabled
exactly when `canPurchase` is false, hence in particular always while
the balance has not loaded. -/
theorem checkout_button_spec (account : Option String) (unitPrice : Int)
    (balance : Option Int) (quantity : Option Nat) :
    checkoutButton account (canPurchase balance unitPrice quantity) =
      (if strTruthy account then
        CheckoutButton.submitButton (!canPurchase balance unitPrice quantity)
       else CheckoutButton.loginButton) ∧
    checkoutButton account (canPurchase none unitPrice quantity) ≠
      CheckoutButton.submitButton false := by
  cases h : strTruthy account <;> simp [checkoutButton, h, canPurchase]

/-- Witness for C8 at a concrete state: with an account but no loaded
balance, the rendered submit button is not enabled. -/
theorem checkout_button_witness :
    checkoutButton (some "0xab") (canPurchase none 5 (some 1)) ≠
      CheckoutButton.submitButton false :=
  (checkout_button_spec (some "0xab") 5 none (some 1)).2

/-- C9: a bid row displays the expired status key iff the bid has an
expiry date that is at or before the render time, and the active status
key otherwise (in particular for bids with no expiry); the displayed
price amount is `unitPrice * availableQuantity`. -/
theorem bid_status_price_spec (now : Int) (item : BidItem) :
    (bidStatus now item = "user.bid-placed.status.expired" ↔
      ∃ t, item.expiredAt = some t ∧ t ≤ now) ∧
    (bidStatus now item = "user.bid-placed.status.active" ↔
      (item.expiredAt = none ∨ ∃ t, item.expiredAt = some t ∧ now < t)) ∧
    displayedPrice item = item.unitPrice * item.availableQuantity := by
  refine ⟨?_, ?_, rfl⟩
  · cases hx : item.expiredAt with
    | none => simp [bidStatus, hx]
    | some t => by_cases hle : t ≤ now <;> simp [bidStatus, hx, hle]
  · cases hx : item.expiredAt with
    | none => simp [bidStatus, hx]
    | some t =>
      by_cases hle : t ≤ now <;> simp [bidStatus, hx, hle, lt_of_not_le]

/-- C10: on the token-creation page with
`RESTRICT_TO_VERIFIED_ACCOUNT` set, the restricted-access notice is
rendered iff the fetched verification status differs from `VALIDATED`,
and the creation form is rendered iff it equals `VALIDATED` — so an
unverified account can never reach the creation form. -/
theorem create_page_restriction (status : Option String)
    (multiple : Bool) :
    (creatorVerified status = true ↔ status = some "VALIDATED") ∧
    (createPageRender true status multiple = CreateRender.restrictedNotice ↔
      ¬(status = some "VALIDATED")) ∧
    (createPageRender true status multiple =
        CreateRender.createForm multiple ↔
      status = some "VALIDATED") := by
  refine ⟨by simp [creatorVerified], ?_, ?_⟩ <;>
    by_cases h : status = some "VALIDATED" <;>
      simp [createPageRender, creatorVerified, h]

/-- Witness for C10 at a concrete status: a pending verification never
reaches the creation form under the restriction. -/
theorem create_page_restriction_witness :
    createPageRender true (some "PENDING") true =
      CreateRender.restrictedNotice :=
  ((create_page_restriction (some "PENDING") true).2.1).mpr (by decide)

end StarterKit
